import Mathlib

/-!
# Verification of the anaconda throttled query dispatcher

Shallow embedding of `twitter.go` (package `anaconda`): the data model
(`TwitterApi`, `query`, `response`), the package-level OAuth client, the
query executor (`apiGet`, `apiPost`, `execQuery`, `decodeResponse`) and the
dispatcher loop (`throttledQuery`).

External collaborators are modelled as explicit values:
* the HTTP transport (`oauthClient.Get` / `oauthClient.Post` together with
  `http.DefaultClient`) becomes a `Transport` function from a signed request
  to either a transport-level error or an HTTP response;
* the `tokenbucket` package (a separate repository) becomes a small `Bucket`
  record whose operations follow the spec's TokenBucket contract;
* `ApiError` / `newApiError` / `RateLimitCheck` live in a file of this
  repository that is not part of the excerpt, so they are modelled from the
  spec's description (status code plus enough of the response to classify a
  rate-limit rejection and read its reset instant).

Go `nil`-pointer dereference (a runtime panic) is modelled by `Option`:
an operation that would panic returns `none`.  Channels are modelled as
FIFO lists; a send on a query's private result channel is recorded as a
`deliver` event in the dispatcher's event trace, so the claims about
single delivery can be read off the trace.  `time.Duration` values are
naturals (nanosecond counts); the decoded JSON payload is abstracted to a
natural number written into the query's output slot.
-/

namespace Anaconda

/-- HTTP method tag, source: `_GET = iota` (twitter.go line 53). -/
def _GET : Nat := 0

/-- HTTP method tag, source: `_POST = iota` (twitter.go line 54). -/
def _POST : Nat := 1

/-- OAuth credential pair (`oauth.Credentials`): token and secret. -/
structure Credentials where
  Token : String
  Secret : String
deriving DecidableEq, Repr

/-- The package-level `oauth.Client` value: three endpoint URIs plus the
consumer credentials mutated by `SetConsumerKey` / `SetConsumerSecret`. -/
structure OAuthClient where
  TemporaryCredentialRequestURI : String
  ResourceOwnerAuthorizationURI : String
  TokenRequestURI : String
  Credentials : Anaconda.Credentials
deriving DecidableEq, Repr

/-- The initial value of the package-level `var oauthClient`
(twitter.go lines 57-61); the consumer credentials start zero-valued. -/
def oauthClient : OAuthClient :=
  { TemporaryCredentialRequestURI := "http://api.twitter.com/oauth/request_token"
    ResourceOwnerAuthorizationURI := "http://api.twitter.com/oauth/authenticate"
    TokenRequestURI := "http://api.twitter.com/oauth/access_token"
    Credentials := { Token := "", Secret := "" } }

/-- Token bucket state.  The `tokenbucket` package is an external
collaborator (spec section 4.1): refill interval, capacity and current
token count. -/
structure Bucket where
  rate : Nat
  capacity : Int
  tokens : Nat
deriving DecidableEq, Repr

/-- `tokenbucket.NewBucket(rate, bufferSize)`: fresh bucket with the given
refill interval and capacity. -/
def NewBucket (rate : Nat) (bufferSize : Int) : Bucket :=
  { rate := rate, capacity := bufferSize, tokens := 0 }

/-- `Bucket.SpendToken(n)`: deduct `n` tokens (the blocking wait until the
tokens are available is temporal behaviour outside the state model). -/
def Bucket.SpendToken (b : Bucket) (n : Nat) : Bucket :=
  { b with tokens := b.tokens - n }

/-- `Bucket.Drain()`: reset the current token count to 0. -/
def Bucket.Drain (b : Bucket) : Bucket :=
  { b with tokens := 0 }

/-- `Bucket.SetRate(d)`: reconfigure the refill interval. -/
def Bucket.SetRate (b : Bucket) (d : Nat) : Bucket :=
  { b with rate := d }

/-- `Bucket.GetRate()`: read the refill interval. -/
def Bucket.GetRate (b : Bucket) : Nat :=
  b.rate

/-- An HTTP response body: either well-formed JSON (the decoded payload is
abstracted to a `Nat`) or malformed text on which the JSON decoder fails. -/
inductive Body where
  | json (v : Nat)
  | malformed (text : String)
deriving DecidableEq, Repr

/-- An HTTP response as seen by `decodeResponse`: status code, body, and
the server's rate-limit-reset header when present (epoch instant). -/
structure HttpResponse where
  StatusCode : Nat
  Body : Anaconda.Body
  rateLimitReset : Option Nat
deriving DecidableEq, Repr

/-- Modelled from the spec: `ApiError` is defined in a repository file not
in the excerpt.  Per spec section 4.2 item 4 it carries the status code and
enough of the response body/headers to answer "was this a rate-limit
rejection, and if so, when does it reset". -/
structure ApiError where
  StatusCode : Nat
  ResponseBody : Anaconda.Body
  RateLimitReset : Option Nat
deriving DecidableEq, Repr

/-- Modelled from the spec: `newApiError(resp)` packages the non-200
response into an `ApiError` preserving status code, body and the
rate-limit-reset header. -/
def newApiError (resp : HttpResponse) : ApiError :=
  { StatusCode := resp.StatusCode
    ResponseBody := resp.Body
    RateLimitReset := resp.rateLimitReset }

/-- Modelled from the spec: `ApiError.RateLimitCheck()` decides whether the
rejection is a rate-limit rejection (HTTP 429, spec section 6) and returns
the reset instant parsed from the server-provided header. -/
def ApiError.RateLimitCheck (e : ApiError) : Bool × Nat :=
  if e.StatusCode == 429 then (true, e.RateLimitReset.getD 0) else (false, 0)

/-- A Go `error` value as it arises in this file: a transport-level failure
from the signed call, a JSON decode failure, a `fmt.Errorf` error (the
unsupported-method case), or an `*ApiError`.  The type assertion
`err.(*ApiError)` succeeds exactly on the `api` constructor. -/
inductive GoError where
  | transportErr (msg : String)
  | decodeErr (msg : String)
  | otherErr (msg : String)
  | api (e : ApiError)
deriving DecidableEq, Repr

/-- One signed HTTP call handed to the external transport: the consumer
credentials of the package-level OAuth client, the per-client user
credentials, URL, form values and method tag. -/
structure SignedRequest where
  consumer : Credentials
  user : Credentials
  url : String
  form : List (String × String)
  method : Nat
deriving DecidableEq, Repr

/-- The external transport (`oauthClient.Get` / `Post` over
`http.DefaultClient`): a signed request yields a transport error or an
HTTP response. -/
structure Transport where
  send : SignedRequest → Except String HttpResponse

/-- The `query` struct (twitter.go lines 69-75): url, form, method tag and
the identity of the private result channel.  The `data interface{}` output
slot is represented by the decoded payload delivered on the channel. -/
structure Query where
  url : String
  form : List (String × String)
  method : Nat
  response_ch : Nat
deriving DecidableEq, Repr

/-- The `response` struct (twitter.go lines 77-80) sent on a query's
private result channel. -/
structure Response where
  data : Option Nat
  err : Option GoError
deriving DecidableEq, Repr

/-- The `TwitterApi` struct plus the bookkeeping the claims are about:
`queryQueueCapacity` records the buffer size of the channel created by
`make(chan query)` and `dispatchers` the number of `throttledQuery`
goroutines started for this client. -/
structure TwitterApi where
  Credentials : Anaconda.Credentials
  queryQueue : List Query
  queryQueueCapacity : Nat
  bucket : Option Bucket
  dispatchers : Nat
deriving DecidableEq, Repr

/-- Process-wide state: the package-level `oauthClient` variable and every
`TwitterApi` instance alive in the process. -/
structure ProcState where
  oauthClient : OAuthClient
  clients : List TwitterApi
deriving DecidableEq, Repr

/-- `NewTwitterApi` (twitter.go lines 87-94): fresh unbuffered queue, no
bucket, one dispatcher goroutine started by `go c.throttledQuery()`. -/
def NewTwitterApi (access_token : String) (access_token_secret : String) : TwitterApi :=
  { Credentials := { Token := access_token, Secret := access_token_secret }
    queryQueue := []
    queryQueueCapacity := 0
    bucket := none
    dispatchers := 1 }

/-- `SetConsumerKey` (twitter.go lines 98-100): writes the consumer token
into the package-level `oauthClient`. -/
def SetConsumerKey (consumer_key : String) (s : ProcState) : ProcState :=
  { s with oauthClient :=
      { s.oauthClient with Credentials :=
          { s.oauthClient.Credentials with Token := consumer_key } } }

/-- `SetConsumerSecret` (twitter.go lines 104-106): writes the consumer
secret into the package-level `oauthClient`. -/
def SetConsumerSecret (consumer_secret : String) (s : ProcState) : ProcState :=
  { s with oauthClient :=
      { s.oauthClient with Credentials :=
          { s.oauthClient.Credentials with Secret := consumer_secret } } }

/-- `EnableRateLimiting` (twitter.go lines 109-111). -/
def TwitterApi.EnableRateLimiting (c : TwitterApi) (rate : Nat) (bufferSize : Int) : TwitterApi :=
  { c with bucket := some (NewBucket rate bufferSize) }

/-- `DisableRateLimiting` (twitter.go lines 114-116). -/
def TwitterApi.DisableRateLimiting (c : TwitterApi) : TwitterApi :=
  { c with bucket := none }

/-- `SetDelay` (twitter.go lines 120-122): `c.bucket.SetRate(t)` with no
nil check — on a nil bucket the dereference panics (`none`). -/
def TwitterApi.SetDelay (c : TwitterApi) (t : Nat) : Option TwitterApi :=
  match c.bucket with
  | none => none
  | some b => some { c with bucket := some (b.SetRate t) }

/-- `GetDelay` (twitter.go lines 124-126): `c.bucket.GetRate()` with no
nil check — on a nil bucket the dereference panics (`none`). -/
def TwitterApi.GetDelay (c : TwitterApi) : Option Nat :=
  match c.bucket with
  | none => none
  | some b => some b.GetRate

/-- `decodeResponse` (twitter.go lines 167-172): non-200 becomes
`newApiError(resp)` without touching the output target; 200 decodes the
JSON body into the output target, surfacing a decode failure as an error. -/
def decodeResponse (resp : HttpResponse) : Except GoError Nat :=
  if resp.StatusCode ≠ 200 then
    Except.error (GoError.api (newApiError resp))
  else
    match resp.Body with
    | Body.json v => Except.ok v
    | Body.malformed s => Except.error (GoError.decodeErr s)

/-- `apiGet` (twitter.go lines 147-154): one signed GET through the
package-level OAuth client, then `decodeResponse`.  Returns the outcome
together with the list of transport calls performed. -/
def TwitterApi.apiGet (c : TwitterApi) (s : ProcState) (t : Transport)
    (urlStr : String) (form : List (String × String)) :
    Except GoError Nat × List SignedRequest :=
  let req : SignedRequest :=
    { consumer := s.oauthClient.Credentials, user := c.Credentials
      url := urlStr, form := form, method := _GET }
  match t.send req with
  | Except.error e => (Except.error (GoError.transportErr e), [req])
  | Except.ok resp => (decodeResponse resp, [req])

/-- `apiPost` (twitter.go lines 157-164): one signed POST through the
package-level OAuth client, then `decodeResponse`. -/
def TwitterApi.apiPost (c : TwitterApi) (s : ProcState) (t : Transport)
    (urlStr : String) (form : List (String × String)) :
    Except GoError Nat × List SignedRequest :=
  let req : SignedRequest :=
    { consumer := s.oauthClient.Credentials, user := c.Credentials
      url := urlStr, form := form, method := _POST }
  match t.send req with
  | Except.error e => (Except.error (GoError.transportErr e), [req])
  | Except.ok resp => (decodeResponse resp, [req])

/-- `execQuery` (twitter.go lines 176-185): dispatch on the method tag;
any method other than `_GET` / `_POST` performs no transport call and
returns `fmt.Errorf("HTTP method not yet supported")`. -/
def TwitterApi.execQuery (c : TwitterApi) (s : ProcState) (t : Transport)
    (urlStr : String) (form : List (String × String)) (method : Nat) :
    Except GoError Nat × List SignedRequest :=
  if method = _GET then
    c.apiGet s t urlStr form
  else if method = _POST then
    c.apiPost s t urlStr form
  else
    (Except.error (GoError.otherErr "HTTP method not yet supported"), [])

/-- The outcome of `c.execQuery(url, form, data, method)` for a queued
request, as computed inside the dispatcher loop (twitter.go line 203). -/
def execOutcome (c : TwitterApi) (s : ProcState) (t : Transport) (q : Query) :
    Except GoError Nat :=
  (c.execQuery s t q.url q.form q.method).1

/-- Observable actions of one dispatcher pass, in program order:
`spendToken` is `<-c.bucket.SpendToken(1)`, `exec` the `execQuery` call,
`resubmit` the send `c.QueryQueue <- q` (sic: the source spells the
`queryQueue` field with a capital letter there), `sleepUntil` the
`<-time.After(nextWindow.Sub(time.Now()))` wait (the argument is the
absolute reset instant), `drain` the `c.bucket.Drain()` call and `deliver`
the send on the query's private result channel. -/
inductive Event where
  | spendToken
  | exec (q : Query)
  | resubmit (q : Query)
  | sleepUntil (t : Nat)
  | drain
  | deliver (ch : Nat) (r : Response)
deriving DecidableEq, Repr

/-- One iteration of the `throttledQuery` loop (twitter.go lines 190-225)
on the request at the head of the queue.  Returns the client state after
the pass (`none` when the pass panics: the unguarded `c.bucket.Drain()`
on a nil bucket) together with the event trace of the pass.  An empty
queue means the loop is blocked in the channel receive: no state change,
no events. -/
def TwitterApi.throttledQueryStep (c : TwitterApi) (s : ProcState) (t : Transport) :
    Option TwitterApi × List Event :=
  match c.queryQueue with
  | [] => (some c, [])
  | q :: rest =>
    let gateEvents : List Event :=
      match c.bucket with
      | none => []
      | some _ => [Event.spendToken]
    let bucket1 : Option Bucket :=
      match c.bucket with
      | none => none
      | some b => some (b.SpendToken 1)
    match execOutcome c s t q with
    | Except.error (GoError.api apiErr) =>
      if (apiErr.RateLimitCheck).1 then
        -- rate-limit branch: re-queue at the tail, sleep, then Drain
        match bucket1 with
        | none => (none, gateEvents ++ [Event.exec q, Event.resubmit q,
            Event.sleepUntil (apiErr.RateLimitCheck).2])
        | some b =>
          (some { c with queryQueue := rest ++ [q], bucket := some b.Drain },
           gateEvents ++ [Event.exec q, Event.resubmit q,
             Event.sleepUntil (apiErr.RateLimitCheck).2, Event.drain])
      else
        -- non-rate-limit ApiError: the err != nil branch sends nothing
        (some { c with queryQueue := rest, bucket := bucket1 },
         gateEvents ++ [Event.exec q])
    | Except.error _ =>
      -- non-ApiError error: the err != nil branch sends nothing
      (some { c with queryQueue := rest, bucket := bucket1 },
       gateEvents ++ [Event.exec q])
    | Except.ok v =>
      -- success: send {data, err} on the private result channel
      (some { c with queryQueue := rest, bucket := bucket1 },
       gateEvents ++ [Event.exec q,
         Event.deliver q.response_ch { data := some v, err := none }])

/-- Run the dispatcher loop for up to `fuel` passes, stopping early when
the queue is empty (the loop blocks on the channel receive) or when a pass
panics.  Concatenates the event traces of the passes. -/
def TwitterApi.runDispatcher (c : TwitterApi) (s : ProcState) (t : Transport) :
    Nat → Option TwitterApi × List Event
  | 0 => (some c, [])
  | fuel + 1 =>
    match c.queryQueue with
    | [] => (some c, [])
    | _ :: _ =>
      match c.throttledQueryStep s t with
      | (none, evts) => (none, evts)
      | (some c1, evts) =>
        let r := c1.runDispatcher s t fuel
        (r.1, evts ++ r.2)

/-- The sub-trace of `execQuery` calls, in dispatch order. -/
def execs (evts : List Event) : List Query :=
  evts.filterMap fun e =>
    match e with
    | Event.exec q => some q
    | _ => none

/-- The sub-trace of result-channel sends, in delivery order:
channel identity paired with the `response` value sent. -/
def deliveries (evts : List Event) : List (Nat × Response) :=
  evts.filterMap fun e =>
    match e with
    | Event.deliver ch r => some (ch, r)
    | _ => none

/-- Is this `execQuery` outcome the retried class, i.e. an `*ApiError`
whose `RateLimitCheck` reports a rate-limit rejection? -/
def isRateLimitOutcome : Except GoError Nat → Bool
  | Except.error (GoError.api e) => (e.RateLimitCheck).1
  | _ => false

/- Concrete fixtures used by the closed theorems below. -/

/-- Initial process state: the package-level `oauthClient` as declared. -/
def procState0 : ProcState :=
  { oauthClient := oauthClient, clients := [] }

/-- A GET search query whose result channel is channel 1. -/
def q1 : Query :=
  { url := "https://api.twitter.com/1.1/search/tweets.json"
    form := [("q", "golang")]
    method := _GET
    response_ch := 1 }

/-- A GET query whose result channel is channel 2. -/
def q2 : Query :=
  { url := "https://api.twitter.com/1.1/statuses/home_timeline.json"
    form := []
    method := _GET
    response_ch := 2 }

/-- A transport that always answers 200 with JSON payload 7. -/
def okTransport : Transport :=
  { send := fun _ =>
      Except.ok { StatusCode := 200, Body := Body.json 7, rateLimitReset := none } }

/-- A transport that always fails at the network level. -/
def errTransport : Transport :=
  { send := fun _ => Except.error "connection refused" }

/-- A transport that always answers 404 (a non-retryable API error). -/
def notFoundTransport : Transport :=
  { send := fun _ =>
      Except.ok { StatusCode := 404, Body := Body.malformed "not found", rateLimitReset := none } }

/-- A transport that always answers 429 with a reset header (a rate-limit
rejection). -/
def rlTransport : Transport :=
  { send := fun _ =>
      Except.ok { StatusCode := 429, Body := Body.malformed "rate limited",
                  rateLimitReset := some 1700000000 } }

/-- A 404 response fixture. -/
def resp404 : HttpResponse :=
  { StatusCode := 404, Body := Body.malformed "not found", rateLimitReset := none }

/-- A 200 response fixture with a well-formed JSON body. -/
def resp200 : HttpResponse :=
  { StatusCode := 200, Body := Body.json 7, rateLimitReset := none }

/-- C5: `decodeResponse` decodes the body into the output target exactly
when the status is 200 (a decode failure surfacing as a decode error),
and on any other status returns an `ApiError` that preserves the status
code, body and rate-limit-reset header, without decoding the body. -/
theorem decodeResponse_spec (resp : HttpResponse) :
    (resp.StatusCode ≠ 200 →
      decodeResponse resp = Except.error (GoError.api (newApiError resp)) ∧
      (newApiError resp).StatusCode = resp.StatusCode ∧
      (newApiError resp).ResponseBody = resp.Body ∧
      (newApiError resp).RateLimitReset = resp.rateLimitReset) ∧
    (resp.StatusCode = 200 →
      (∀ v, resp.Body = Body.json v → decodeResponse resp = Except.ok v) ∧
      (∀ msg, resp.Body = Body.malformed msg →
        decodeResponse resp = Except.error (GoError.decodeErr msg))) := by
  constructor
  · intro h
    simp [decodeResponse, h, newApiError]
  · intro h
    constructor <;> intro x hx <;> simp [decodeResponse, h, hx]

/-- Witness for C5 at the 404 and 200 fixtures. -/
theorem decodeResponse_spec_witness :
    decodeResponse resp404 = Except.error (GoError.api (newApiError resp404)) ∧
    decodeResponse resp200 = Except.ok 7 :=
  ⟨((decodeResponse_spec resp404).1 (by decide)).1,
   ((decodeResponse_spec resp200).2 rfl).1 7 rfl⟩

/-- C3: on a rate-limit rejection with reset instant `next`, one dispatcher
pass re-submits the very same query value to the tail of its own queue,
then sleeps until `next`, then drains the bucket — in that order, with no
delivery on the request's result channel — and the pass completes normally
(the loop resumes serving the queue, so the re-queued request traverses
the pipeline again). -/
theorem dispatcher_rate_limit_pass (c : TwitterApi) (s : ProcState) (t : Transport)
    (q : Query) (rest : List Query) (b : Bucket) (apiErr : ApiError) (next : Nat)
    (hq : c.queryQueue = q :: rest)
    (hb : c.bucket = some b)
    (hexec : execOutcome c s t q = Except.error (GoError.api apiErr))
    (hrl : apiErr.RateLimitCheck = (true, next)) :
    c.throttledQueryStep s t =
      (some { c with queryQueue := rest ++ [q], bucket := some ((b.SpendToken 1).Drain) },
       [Event.spendToken, Event.exec q, Event.resubmit q,
        Event.sleepUntil next, Event.drain]) := by
  simp [TwitterApi.throttledQueryStep, hq, hb, hexec, hrl]

/-- A rate-limited client fixture: bucket configured, one queued query. -/
def cRL : TwitterApi :=
  { NewTwitterApi "token" "secret" with
      queryQueue := [q1], bucket := some (NewBucket 3 5) }

/-- Witness for C3: the 429 transport fixture drives the rate-limit pass. -/
theorem dispatcher_rate_limit_pass_witness :
    cRL.throttledQueryStep procState0 rlTransport =
      (some { cRL with queryQueue := [] ++ [q1],
                       bucket := some (((NewBucket 3 5).SpendToken 1).Drain) },
       [Event.spendToken, Event.exec q1, Event.resubmit q1,
        Event.sleepUntil 1700000000, Event.drain]) :=
  dispatcher_rate_limit_pass cRL procState0 rlTransport q1 [] (NewBucket 3 5)
    (newApiError { StatusCode := 429, Body := Body.malformed "rate limited",
                   rateLimitReset := some 1700000000 })
    1700000000 rfl rfl rfl rfl

/-- C4: before executing the request at the head of the queue, the
dispatcher spends one bucket token exactly when a bucket is configured;
with rate limiting disabled the gate is skipped and the very first action
of the pass is the `execQuery` call. -/
theorem dispatcher_gate (c : TwitterApi) (s : ProcState) (t : Transport)
    (q : Query) (rest : List Query) (hq : c.queryQueue = q :: rest) :
    (Event.spendToken ∈ (c.throttledQueryStep s t).2 ↔ c.bucket.isSome = true) ∧
    (c.bucket = none →
      ((c.throttledQueryStep s t).2).head? = some (Event.exec q)) := by
  cases hb : c.bucket with
  | none =>
    cases hexec : execOutcome c s t q with
    | ok v => simp [TwitterApi.throttledQueryStep, hq, hb, hexec]
    | error e =>
      cases e with
      | api apiErr =>
        by_cases hrl : (apiErr.RateLimitCheck).1 = true
        · simp [TwitterApi.throttledQueryStep, hq, hb, hexec, hrl]
        · simp [TwitterApi.throttledQueryStep, hq, hb, hexec, hrl]
      | transportErr m => simp [TwitterApi.throttledQueryStep, hq, hb, hexec]
      | decodeErr m => simp [TwitterApi.throttledQueryStep, hq, hb, hexec]
      | otherErr m => simp [TwitterApi.throttledQueryStep, hq, hb, hexec]
  | some b =>
    cases hexec : execOutcome c s t q with
    | ok v => simp [TwitterApi.throttledQueryStep, hq, hb, hexec]
    | error e =>
      cases e with
      | api apiErr =>
        by_cases hrl : (apiErr.RateLimitCheck).1 = true
        · simp [TwitterApi.throttledQueryStep, hq, hb, hexec, hrl]
        · simp [TwitterApi.throttledQueryStep, hq, hb, hexec, hrl]
      | transportErr m => simp [TwitterApi.throttledQueryStep, hq, hb, hexec]
      | decodeErr m => simp [TwitterApi.throttledQueryStep, hq, hb, hexec]
      | otherErr m => simp [TwitterApi.throttledQueryStep, hq, hb, hexec]

/-- A client fixture with rate limiting disabled and one queued query. -/
def cNoBucket : TwitterApi :=
  { NewTwitterApi "token" "secret" with queryQueue := [q1] }

/-- Witness for C4 at the bucketless fixture. -/
theorem dispatcher_gate_witness :
    (Event.spendToken ∈ (cNoBucket.throttledQueryStep procState0 okTransport).2 ↔
       cNoBucket.bucket.isSome = true) ∧
    (cNoBucket.bucket = none →
      ((cNoBucket.throttledQueryStep procState0 okTransport).2).head? =
        some (Event.exec q1)) :=
  dispatcher_gate cNoBucket procState0 okTransport q1 [] rfl

/-- C9: with rate limiting disabled (nil bucket), `SetDelay` and `GetDelay`
dereference the nil bucket and panic instead of acting as a no-op or
returning an error; likewise the `Drain` call after the post-retry sleep
is not guarded by a nil check, so a rate-limit rejection received while
the bucket is nil panics the dispatcher pass. -/
theorem nil_bucket_panics (c : TwitterApi) (d : Nat) (s : ProcState) (t : Transport)
    (q : Query) (rest : List Query) (apiErr : ApiError)
    (hb : c.bucket = none)
    (hq : c.queryQueue = q :: rest)
    (hexec : execOutcome c s t q = Except.error (GoError.api apiErr))
    (hrl : (apiErr.RateLimitCheck).1 = true) :
    c.SetDelay d = none ∧ c.GetDelay = none ∧
    (c.throttledQueryStep s t).1 = none := by
  refine ⟨?_, ?_, ?_⟩ <;>
    simp [TwitterApi.SetDelay, TwitterApi.GetDelay,
      TwitterApi.throttledQueryStep, hb, hq, hexec, hrl]

/-- Witness for C9: the bucketless fixture hit by the 429 transport. -/
theorem nil_bucket_panics_witness :
    cNoBucket.SetDelay 4 = none ∧ cNoBucket.GetDelay = none ∧
    (cNoBucket.throttledQueryStep procState0 rlTransport).1 = none :=
  nil_bucket_panics cNoBucket 4 procState0 rlTransport q1 []
    (newApiError { StatusCode := 429, Body := Body.malformed "rate limited",
                   rateLimitReset := some 1700000000 })
    rfl rfl rfl rfl

/-- `apiGet` performs exactly one transport call: the signed GET request
built from the package-level consumer credentials and the client's user
credentials. -/
theorem apiGet_calls (c : TwitterApi) (s : ProcState) (t : Transport)
    (u : String) (f : List (String × String)) :
    (c.apiGet s t u f).2 =
      [{ consumer := s.oauthClient.Credentials, user := c.Credentials,
         url := u, form := f, method := _GET }] := by
  simp only [TwitterApi.apiGet]
  split <;> rfl

/-- `apiPost` performs exactly one transport call: the signed POST request
built from the package-level consumer credentials and the client's user
credentials. -/
theorem apiPost_calls (c : TwitterApi) (s : ProcState) (t : Transport)
    (u : String) (f : List (String × String)) :
    (c.apiPost s t u f).2 =
      [{ consumer := s.oauthClient.Credentials, user := c.Credentials,
         url := u, form := f, method := _POST }] := by
  simp only [TwitterApi.apiPost]
  split <;> rfl

/-- C6: `execQuery` dispatches a signed GET for `_GET` and a signed POST
for `_POST`; any other method value performs no transport call and returns
the unsupported-method error, and a queued request with such a method is
consumed by the dispatcher without ever being re-submitted (never
retried). -/
theorem execQuery_method_dispatch (c : TwitterApi) (s : ProcState) (t : Transport)
    (u : String) (f : List (String × String)) (m : Nat)
    (hg : m ≠ _GET) (hp : m ≠ _POST) :
    c.execQuery s t u f _GET = c.apiGet s t u f ∧
    ((c.execQuery s t u f _GET).2).map SignedRequest.method = [_GET] ∧
    c.execQuery s t u f _POST = c.apiPost s t u f ∧
    ((c.execQuery s t u f _POST).2).map SignedRequest.method = [_POST] ∧
    c.execQuery s t u f m =
      (Except.error (GoError.otherErr "HTTP method not yet supported"), []) ∧
    (∀ q rest, c.queryQueue = q :: rest → q.method = m →
      (c.throttledQueryStep s t).1 =
        some { c with queryQueue := rest,
                      bucket := c.bucket.map (fun b => b.SpendToken 1) } ∧
      ∀ q', Event.resubmit q' ∉ (c.throttledQueryStep s t).2) := by
  have hGET : c.execQuery s t u f _GET = c.apiGet s t u f := rfl
  have hPOST : c.execQuery s t u f _POST = c.apiPost s t u f := rfl
  have hbad : c.execQuery s t u f m =
      (Except.error (GoError.otherErr "HTTP method not yet supported"), []) := by
    simp [TwitterApi.execQuery, hg, hp]
  refine ⟨hGET, ?_, hPOST, ?_, hbad, ?_⟩
  · rw [hGET, apiGet_calls]; rfl
  · rw [hPOST, apiPost_calls]; rfl
  · intro q rest hq hqm
    have hout : execOutcome c s t q =
        Except.error (GoError.otherErr "HTTP method not yet supported") := by
      show (c.execQuery s t q.url q.form q.method).1 = _
      rw [hqm]
      simp [TwitterApi.execQuery, hg, hp]
    cases hb : c.bucket <;>
      constructor <;>
      simp [TwitterApi.throttledQueryStep, hq, hb, hout]

/-- A query carrying an unsupported method tag. -/
def q5 : Query :=
  { url := "https://api.twitter.com/1.1/anything.json"
    form := []
    method := 5
    response_ch := 9 }

/-- A client fixture whose only queued query has an unsupported method. -/
def cBad : TwitterApi :=
  { NewTwitterApi "token" "secret" with queryQueue := [q5] }

/-- Witness for C6 at method tag 5. -/
theorem execQuery_method_dispatch_witness :
    cBad.execQuery procState0 okTransport "u" [] 5 =
      (Except.error (GoError.otherErr "HTTP method not yet supported"), []) ∧
    (cBad.throttledQueryStep procState0 okTransport).1 =
      some { cBad with queryQueue := [],
                       bucket := cBad.bucket.map (fun b => b.SpendToken 1) } :=
  ⟨(execQuery_method_dispatch cBad procState0 okTransport "u" [] 5
      (by decide) (by decide)).2.2.2.2.1,
   ((execQuery_method_dispatch cBad procState0 okTransport "u" [] 5
      (by decide) (by decide)).2.2.2.2.2 q5 [] rfl rfl).1⟩

/-- C1 is refuted by the code: a non-retryable error (here a transport
failure) reaches the `err != nil` branch of `throttledQuery`, whose only
action is the rate-limit check — the send on the result channel lives in
the `else` branch, so no `response` carrying the error is ever delivered
and the blocked caller is never unblocked.  The run below consumes the
request (queue empties, the loop keeps serving) yet its trace contains no
delivery. -/
theorem dispatcher_drops_nonretryable_error :
    execOutcome cNoBucket procState0 errTransport q1 =
      Except.error (GoError.transportErr "connection refused") ∧
    isRateLimitOutcome (execOutcome cNoBucket procState0 errTransport q1) = false ∧
    cNoBucket.runDispatcher procState0 errTransport 5 =
      (some { cNoBucket with queryQueue := [] }, [Event.exec q1]) ∧
    deliveries (cNoBucket.runDispatcher procState0 errTransport 5).2 = [] :=
  ⟨rfl, rfl, rfl, rfl⟩

/-- A client fixture holding the query that will receive a 404. -/
def c404 : TwitterApi :=
  { NewTwitterApi "token" "secret" with queryQueue := [q2] }

/-- C2 is refuted by the code: a request whose outcome is a non-retryable
API error (404) is consumed terminally — the queue empties and the request
never re-enters the pipeline — while zero (not exactly one) `response`
values are written to its private result channel over its full lifetime. -/
theorem dispatcher_not_exactly_once :
    execOutcome c404 procState0 notFoundTransport q2 =
      Except.error (GoError.api (newApiError resp404)) ∧
    isRateLimitOutcome (execOutcome c404 procState0 notFoundTransport q2) = false ∧
    (c404.runDispatcher procState0 notFoundTransport 5).1 =
      some { c404 with queryQueue := [] } ∧
    ((deliveries (c404.runDispatcher procState0 notFoundTransport 5).2).filter
        (fun p => p.1 == q2.response_ch)).length = 0 :=
  ⟨rfl, rfl, rfl, rfl⟩

/-- The outcome of executing one query under given user credentials:
`execQuery` reads its receiver only through `c.Credentials`, so this
determines `execOutcome` for every client with those credentials. -/
def outcomeAt (cred : Anaconda.Credentials) (s : ProcState) (t : Transport) (q : Query) :
    Except GoError Nat :=
  (TwitterApi.execQuery
    { Credentials := cred, queryQueue := [], queryQueueCapacity := 0,
      bucket := none, dispatchers := 0 } s t q.url q.form q.method).1

/-- `execOutcome` depends on the client only through its credentials. -/
theorem execOutcome_eq_outcomeAt (c : TwitterApi) (s : ProcState) (t : Transport) (q : Query) :
    execOutcome c s t q = outcomeAt c.Credentials s t q := rfl

/-- The dispatcher's event trace over a queue none of whose requests is
rate-limited: each request is executed once and, on success only, a
delivery on its private channel follows immediately. -/
def traceOf (cred : Anaconda.Credentials) (s : ProcState) (t : Transport) :
    List Query → List Event
  | [] => []
  | q :: rest =>
    Event.exec q ::
      ((match outcomeAt cred s t q with
        | Except.ok v => [Event.deliver q.response_ch { data := some v, err := none }]
        | Except.error _ => []) ++ traceOf cred s t rest)

/-- With rate limiting disabled and no rate-limited outcomes, running the
dispatcher for one pass per queued request empties the queue and produces
exactly the trace `traceOf`. -/
theorem runDispatcher_no_rl (s : ProcState) (t : Transport) (cred : Anaconda.Credentials) :
    ∀ (qs : List Query) (cap disp : Nat),
      (∀ q ∈ qs, isRateLimitOutcome (outcomeAt cred s t q) = false) →
      (TwitterApi.mk cred qs cap none disp).runDispatcher s t qs.length =
        (some (TwitterApi.mk cred [] cap none disp), traceOf cred s t qs) := by
  intro qs
  induction qs with
  | nil => intro cap disp _; rfl
  | cons q rest ih =>
    intro cap disp hok
    have hnr := hok q (List.mem_cons_self q rest)
    have hstep : (TwitterApi.mk cred (q :: rest) cap none disp).throttledQueryStep s t =
        (some (TwitterApi.mk cred rest cap none disp),
         Event.exec q ::
           (match outcomeAt cred s t q with
            | Except.ok v => [Event.deliver q.response_ch { data := some v, err := none }]
            | Except.error _ => [])) := by
      cases ho : outcomeAt cred s t q with
      | ok v =>
        simp [TwitterApi.throttledQueryStep, execOutcome_eq_outcomeAt, ho]
      | error e =>
        cases e with
        | api apiErr =>
          rw [ho] at hnr
          simp only [isRateLimitOutcome] at hnr
          simp [TwitterApi.throttledQueryStep, execOutcome_eq_outcomeAt, ho, hnr]
        | transportErr msg =>
          simp [TwitterApi.throttledQueryStep, execOutcome_eq_outcomeAt, ho]
        | decodeErr msg =>
          simp [TwitterApi.throttledQueryStep, execOutcome_eq_outcomeAt, ho]
        | otherErr msg =>
          simp [TwitterApi.throttledQueryStep, execOutcome_eq_outcomeAt, ho]
    have ihr := ih cap disp (fun q' hq' => hok q' (List.mem_cons_of_mem q hq'))
    show (TwitterApi.mk cred (q :: rest) cap none disp).runDispatcher s t (rest.length + 1) = _
    simp only [TwitterApi.runDispatcher, hstep, ihr, traceOf]
    simp

/-- `execs` of the no-rate-limit trace lists the queue in order. -/
theorem execs_traceOf (cred : Anaconda.Credentials) (s : ProcState) (t : Transport) :
    ∀ qs : List Query, execs (traceOf cred s t qs) = qs := by
  intro qs
  induction qs with
  | nil => rfl
  | cons q rest ih =>
    cases ho : outcomeAt cred s t q <;>
      simp only [traceOf, ho, execs, List.filterMap_cons, List.filterMap_append] at ih ⊢ <;>
      simp [ih]

/-- `deliveries` of the no-rate-limit trace: one delivery per successful
request, in queue order, none for failed requests. -/
theorem deliveries_traceOf (cred : Anaconda.Credentials) (s : ProcState) (t : Transport) :
    ∀ qs : List Query,
      deliveries (traceOf cred s t qs) =
        qs.filterMap (fun q =>
          match outcomeAt cred s t q with
          | Except.ok v => some (q.response_ch, { data := some v, err := none })
          | Except.error _ => none) := by
  intro qs
  induction qs with
  | nil => rfl
  | cons q rest ih =>
    cases ho : outcomeAt cred s t q <;>
      simp only [traceOf, ho, deliveries, List.filterMap_cons, List.filterMap_append] at ih ⊢ <;>
      simp [ih]

/-- When every queued request succeeds, the delivered channels are exactly
the queue's channels, in order. -/
theorem filterMap_deliver_fst (cred : Anaconda.Credentials) (s : ProcState) (t : Transport) :
    ∀ qs : List Query,
      (∀ q ∈ qs, ∃ v, outcomeAt cred s t q = Except.ok v) →
      (qs.filterMap (fun q =>
          match outcomeAt cred s t q with
          | Except.ok v => some (q.response_ch, ({ data := some v, err := none } : Response))
          | Except.error _ => none)).map Prod.fst = qs.map Query.response_ch := by
  intro qs
  induction qs with
  | nil => intro _; rfl
  | cons q rest ih =>
    intro hall
    obtain ⟨v, hv⟩ := hall q (List.mem_cons_self q rest)
    simp only [List.filterMap_cons, hv, List.map_cons]
    simp [ih (fun q' h' => hall q' (List.mem_cons_of_mem q h'))]

/-- C7: with rate limiting disabled and no rate-limit rejections, the
dispatcher sends the queued requests to the transport in enqueue order,
and when every request succeeds their results are delivered on the
respective private channels in submission order (FIFO). -/
theorem dispatcher_fifo (c : TwitterApi) (s : ProcState) (t : Transport)
    (hb : c.bucket = none)
    (hnoRL : ∀ q ∈ c.queryQueue, isRateLimitOutcome (execOutcome c s t q) = false) :
    execs (c.runDispatcher s t c.queryQueue.length).2 = c.queryQueue ∧
    ((∀ q ∈ c.queryQueue, ∃ v, execOutcome c s t q = Except.ok v) →
      (deliveries (c.runDispatcher s t c.queryQueue.length).2).map Prod.fst =
        c.queryQueue.map Query.response_ch) := by
  obtain ⟨cred, qs, cap, bk, disp⟩ := c
  dsimp only at hb hnoRL ⊢
  subst hb
  simp only [execOutcome_eq_outcomeAt] at hnoRL
  rw [runDispatcher_no_rl s t cred qs cap disp hnoRL]
  refine ⟨execs_traceOf cred s t qs, ?_⟩
  intro hall
  simp only [execOutcome_eq_outcomeAt] at hall
  rw [deliveries_traceOf]
  exact filterMap_deliver_fst cred s t qs hall

/-- A bucketless client with two queued requests, in submission order. -/
def cFifo : TwitterApi :=
  { NewTwitterApi "token" "secret" with queryQueue := [q1, q2] }

/-- Witness for C7 on two requests against the always-succeeding
transport. -/
theorem dispatcher_fifo_witness :
    execs (cFifo.runDispatcher procState0 okTransport cFifo.queryQueue.length).2 =
      cFifo.queryQueue ∧
    (deliveries (cFifo.runDispatcher procState0 okTransport cFifo.queryQueue.length).2).map
        Prod.fst =
      cFifo.queryQueue.map Query.response_ch :=
  have h := dispatcher_fifo cFifo procState0 okTransport rfl (by decide)
  ⟨h.1, h.2 (by
    intro q hq
    simp only [cFifo, List.mem_cons] at hq
    rcases hq with rfl | hq
    · exact ⟨7, rfl⟩
    · rcases hq with rfl | hq
      · exact ⟨7, rfl⟩
      · simp at hq)⟩

/-- C8: `SetConsumerKey` and `SetConsumerSecret` write the consumer
credentials into the single process-wide OAuth client: afterwards every
signed call of every client in the process is built from the new consumer
credential (the other consumer field is untouched), and no field of any
`TwitterApi` value in the process changes. -/
theorem consumer_credentials_global (s : ProcState) (k ksec : String)
    (c : TwitterApi) (t : Transport) (u : String) (f : List (String × String)) :
    (SetConsumerKey k s).clients = s.clients ∧
    (SetConsumerSecret ksec s).clients = s.clients ∧
    (SetConsumerKey k s).oauthClient.Credentials.Token = k ∧
    (SetConsumerKey k s).oauthClient.Credentials.Secret = s.oauthClient.Credentials.Secret ∧
    (SetConsumerSecret ksec s).oauthClient.Credentials.Secret = ksec ∧
    (SetConsumerSecret ksec s).oauthClient.Credentials.Token = s.oauthClient.Credentials.Token ∧
    ((c.apiGet (SetConsumerKey k s) t u f).2).map SignedRequest.consumer =
      [(SetConsumerKey k s).oauthClient.Credentials] ∧
    ((c.apiPost (SetConsumerKey k s) t u f).2).map SignedRequest.consumer =
      [(SetConsumerKey k s).oauthClient.Credentials] ∧
    ((c.apiGet (SetConsumerSecret ksec s) t u f).2).map SignedRequest.consumer =
      [(SetConsumerSecret ksec s).oauthClient.Credentials] ∧
    ((c.apiPost (SetConsumerSecret ksec s) t u f).2).map SignedRequest.consumer =
      [(SetConsumerSecret ksec s).oauthClient.Credentials] := by
  refine ⟨rfl, rfl, rfl, rfl, rfl, rfl, ?_, ?_, ?_, ?_⟩ <;>
    simp [apiGet_calls, apiPost_calls]

/-- The client-facing operations on one `TwitterApi`: the configuration
calls, a caller submitting a fresh query into the queue, and one pass of
the dispatcher goroutine. -/
inductive ClientOp where
  | enableRateLimiting (rate : Nat) (bufferSize : Int)
  | disableRateLimiting
  | setDelay (d : Nat)
  | submit (q : Query)
  | dispatchOne (s : ProcState) (t : Transport)

/-- Apply one client operation; `none` models a panic. -/
def applyOp (op : ClientOp) (c : TwitterApi) : Option TwitterApi :=
  match op with
  | ClientOp.enableRateLimiting r n => some (c.EnableRateLimiting r n)
  | ClientOp.disableRateLimiting => some c.DisableRateLimiting
  | ClientOp.setDelay d => c.SetDelay d
  | ClientOp.submit q => some { c with queryQueue := c.queryQueue ++ [q] }
  | ClientOp.dispatchOne s t => (c.throttledQueryStep s t).1

/-- Apply a sequence of client operations, stopping on a panic. -/
def applyOps : List ClientOp → TwitterApi → Option TwitterApi
  | [], c => some c
  | op :: ops, c =>
    match applyOp op c with
    | none => none
    | some c1 => applyOps ops c1

/-- Does this operation call `EnableRateLimiting`? -/
def ClientOp.enables : ClientOp → Bool
  | ClientOp.enableRateLimiting _ _ => true
  | _ => false

/-- A dispatcher pass neither installs a bucket nor changes the number of
dispatcher goroutines. -/
theorem step_preserves_no_bucket (c : TwitterApi) (s : ProcState) (t : Transport)
    (c1 : TwitterApi) (hb : c.bucket = none)
    (h : (c.throttledQueryStep s t).1 = some c1) :
    c1.bucket = none ∧ c1.dispatchers = c.dispatchers := by
  cases hq : c.queryQueue with
  | nil =>
    simp [TwitterApi.throttledQueryStep, hq] at h
    subst h
    exact ⟨hb, rfl⟩
  | cons q rest =>
    cases ho : execOutcome c s t q with
    | ok v =>
      simp [TwitterApi.throttledQueryStep, hq, hb, ho] at h
      subst h
      exact ⟨rfl, rfl⟩
    | error e =>
      cases e with
      | api apiErr =>
        by_cases hrl : (apiErr.RateLimitCheck).1 = true
        · simp [TwitterApi.throttledQueryStep, hq, hb, ho, hrl] at h
        · simp [TwitterApi.throttledQueryStep, hq, hb, ho, hrl] at h
          subst h
          exact ⟨rfl, rfl⟩
      | transportErr msg =>
        simp [TwitterApi.throttledQueryStep, hq, hb, ho] at h
        subst h
        exact ⟨rfl, rfl⟩
      | decodeErr msg =>
        simp [TwitterApi.throttledQueryStep, hq, hb, ho] at h
        subst h
        exact ⟨rfl, rfl⟩
      | otherErr msg =>
        simp [TwitterApi.throttledQueryStep, hq, hb, ho] at h
        subst h
        exact ⟨rfl, rfl⟩

/-- No operation other than `EnableRateLimiting` can install a bucket or
change the dispatcher count. -/
theorem applyOp_preserves_no_bucket (op : ClientOp) (c c1 : TwitterApi)
    (hop : op.enables = false) (hb : c.bucket = none)
    (h : applyOp op c = some c1) :
    c1.bucket = none ∧ c1.dispatchers = c.dispatchers := by
  cases op with
  | enableRateLimiting r n => simp [ClientOp.enables] at hop
  | disableRateLimiting =>
    simp [applyOp, TwitterApi.DisableRateLimiting] at h
    subst h
    exact ⟨rfl, rfl⟩
  | setDelay d =>
    simp [applyOp, TwitterApi.SetDelay, hb] at h
  | submit q =>
    simp [applyOp] at h
    subst h
    exact ⟨hb, rfl⟩
  | dispatchOne s t =>
    exact step_preserves_no_bucket c s t c1 hb h

/-- Under a sequence of operations that never enables rate limiting, the
bucket stays absent and the dispatcher count is preserved. -/
theorem applyOps_no_enable :
    ∀ (ops : List ClientOp) (c c1 : TwitterApi),
      (∀ op ∈ ops, op.enables = false) → c.bucket = none →
      applyOps ops c = some c1 →
      c1.bucket = none ∧ c1.dispatchers = c.dispatchers := by
  intro ops
  induction ops with
  | nil =>
    intro c c1 _ hb h
    simp [applyOps] at h
    subst h
    exact ⟨hb, rfl⟩
  | cons op ops ih =>
    intro c c1 hops hb h
    cases hstep : applyOp op c with
    | none => simp [applyOps, hstep] at h
    | some cm =>
      simp only [applyOps, hstep] at h
      obtain ⟨hb1, hd1⟩ := applyOp_preserves_no_bucket op c cm
        (hops op (List.mem_cons_self op ops)) hb hstep
      obtain ⟨hb2, hd2⟩ := ih cm c1
        (fun o ho => hops o (List.mem_cons_of_mem op ho)) hb1 h
      exact ⟨hb2, hd2.trans hd1⟩

/-- C10: a fresh `TwitterApi` starts with no bucket, a fresh empty
unbuffered queue (channel buffer 0) and exactly one dispatcher goroutine;
under any sequence of client operations that never calls
`EnableRateLimiting` the bucket stays absent and the dispatcher count
stays one, while `EnableRateLimiting` installs a fresh bucket. -/
theorem new_client_unthrottled (a b : String) (r : Nat) (n : Int) :
    (NewTwitterApi a b).bucket = none ∧
    (NewTwitterApi a b).queryQueue = [] ∧
    (NewTwitterApi a b).queryQueueCapacity = 0 ∧
    (NewTwitterApi a b).dispatchers = 1 ∧
    ((NewTwitterApi a b).EnableRateLimiting r n).bucket = some (NewBucket r n) ∧
    (∀ ops c1, (∀ op ∈ ops, op.enables = false) →
      applyOps ops (NewTwitterApi a b) = some c1 →
      c1.bucket = none ∧ c1.dispatchers = 1) := by
  refine ⟨rfl, rfl, rfl, rfl, rfl, ?_⟩
  intro ops c1 hops h
  exact applyOps_no_enable ops (NewTwitterApi a b) c1 hops rfl h

/-- A sequence of operations that never enables rate limiting: toggle the
bucket off, submit one query, run one dispatcher pass. -/
def opsW : List ClientOp :=
  [ClientOp.disableRateLimiting, ClientOp.submit q1,
   ClientOp.dispatchOne procState0 okTransport]

/-- Witness for C10 along the `opsW` operation sequence. -/
theorem new_client_unthrottled_witness :
    (∀ op ∈ opsW, op.enables = false) ∧
    applyOps opsW (NewTwitterApi "token" "secret") =
      some (NewTwitterApi "token" "secret") ∧
    (NewTwitterApi "token" "secret").bucket = none ∧
    (NewTwitterApi "token" "secret").dispatchers = 1 :=
  have h1 : ∀ op ∈ opsW, ClientOp.enables op = false := by
    intro op hop
    simp only [opsW, List.mem_cons, List.not_mem_nil, or_false] at hop
    rcases hop with rfl | rfl | rfl <;> rfl
  have h2 : applyOps opsW (NewTwitterApi "token" "secret") =
      some (NewTwitterApi "token" "secret") := rfl
  ⟨h1, h2,
   ((new_client_unthrottled "token" "secret" 1 5).2.2.2.2.2 opsW
     (NewTwitterApi "token" "secret") h1 h2).1,
   ((new_client_unthrottled "token" "secret" 1 5).2.2.2.2.2 opsW
     (NewTwitterApi "token" "secret") h1 h2).2⟩

end Anaconda
